import Mathlib

/-!
Verification of the jump-window level generator of the Wave Runner game.

The definitions below are a shallow embedding, over the exact rationals, of
the production level-generation module (`levels.ts`): the trajectory
simulator `simulateJump`, the clearance-window solver
`calculateClearanceWindow`, and the level generator
`generateJumpWindowLevel` with its gravity-mode and wave-mode paths.
JavaScript's ambient `Math.random()` is modelled by an explicit stream
`r : ℕ → ℚ` of draws, consumed in exactly the order the source consumes
them.  The unbounded `while` loops are modelled with an explicit fuel
parameter; the simulator's own fuel (`simFuel`) is shown sufficient for its
internal 10-second safety break, so the fuel is not a semantic change.
-/

/- The core `Rat` arithmetic operations are marked `irreducible` upstream,
which blocks `decide`-style evaluation; restore reducibility for them. -/
attribute [local semireducible] Rat.add Rat.mul Rat.sub Rat.inv Rat.ofScientific

set_option maxRecDepth 40000

namespace WaveRunner

/-! ## Physics constants (levels.ts lines 43-50) -/

def GROUND_HEIGHT : ℚ := 50
def PLAYABLE_TOP : ℚ := 60
def SCREEN_HEIGHT : ℚ := 768
def PLAYABLE_HEIGHT : ℚ := SCREEN_HEIGHT - PLAYABLE_TOP - GROUND_HEIGHT
def GROUND_Y : ℚ := SCREEN_HEIGHT - GROUND_HEIGHT
def PLAYER_SIZE : ℚ := 40
def PLAYER_GROUND_Y : ℚ := GROUND_Y - PLAYER_SIZE / 2
def GROUND_DETECTION_THRESHOLD : ℚ := 5

/-- The fixed simulation timestep: 1/60 second (60 FPS). -/
def dt : ℚ := 1 / 60

/-! ## Trajectory simulator (`simulateJump`) -/

/-- One `{x, y, t}` sample of a simulated trajectory. -/
structure Pos where
  x : ℚ
  y : ℚ
  t : ℚ
deriving DecidableEq, Repr

/-- The mutable state of the `simulateJump` loop. -/
structure SimState where
  x : ℚ
  y : ℚ
  vy : ℚ
  t : ℚ
  isHolding : Bool
  holdTimeRemaining : ℚ
deriving DecidableEq, Repr

/-- Outcome of one iteration of the `simulateJump` while-loop body. -/
inductive StepResult where
  /-- The guard was true and no break fired: one sample pushed, loop continues. -/
  | emit : Pos → SimState → StepResult
  /-- Ground collision: the top-of-loop sample plus the landing sample, then break. -/
  | last : Pos → Pos → StepResult
  /-- Safety break (`t > 10`): the top-of-loop sample, then break. -/
  | stop : Pos → StepResult
  /-- The loop guard was false: loop ends, nothing pushed. -/
  | done : StepResult
deriving DecidableEq, Repr

/-- One iteration of the `simulateJump` loop (levels.ts lines 73-113). -/
def simStep (jumpForce gravity speed : ℚ) (st : SimState) : StepResult :=
  if st.y < PLAYER_GROUND_Y ∨ st.vy < 0 then
    let p : Pos := ⟨st.x, st.y, st.t⟩
    -- vy += gravity * dt
    let vyG := st.vy + gravity * dt
    -- held-jump re-trigger block; returns (vy, isHolding, holdTimeRemaining)
    let hold : ℚ × Bool × ℚ :=
      if st.isHolding = true ∧ 0 < st.holdTimeRemaining then
        let vyH :=
          if PLAYER_GROUND_Y - GROUND_DETECTION_THRESHOLD ≤ st.y ∧ 0 ≤ vyG then
            jumpForce
          else vyG
        let htr := st.holdTimeRemaining - dt
        (vyH, if htr ≤ 0 then false else st.isHolding, htr)
      else (vyG, st.isHolding, st.holdTimeRemaining)
    -- y += vy * dt; x += speed * dt; t += dt
    let y1 := st.y + hold.1 * dt
    let x1 := st.x + speed * dt
    let t1 := st.t + dt
    -- ceiling collision clamp; returns (y, vy)
    let ceiling : ℚ × ℚ :=
      if y1 < PLAYABLE_TOP + PLAYER_SIZE / 2 then (PLAYABLE_TOP + PLAYER_SIZE / 2, 0)
      else (y1, hold.1)
    if PLAYER_GROUND_Y ≤ ceiling.1 ∧ 0 < ceiling.2 ∧ hold.2.1 = false then
      .last p ⟨x1, PLAYER_GROUND_Y, t1⟩
    else if 10 < t1 then
      .stop p
    else
      .emit p ⟨x1, ceiling.1, ceiling.2, t1, hold.2.1, hold.2.2⟩
  else .done

/-- The `simulateJump` while-loop, with explicit fuel. -/
def simulateJumpAux (jumpForce gravity speed : ℚ) : ℕ → SimState → List Pos
  | 0, _ => []
  | fuel + 1, st =>
    match simStep jumpForce gravity speed st with
    | .done => []
    | .stop p => [p]
    | .last p q => [p, q]
    | .emit p st2 => p :: simulateJumpAux jumpForce gravity speed fuel st2

/-- Fuel sufficient for the loop's own 10-second safety break: the loop runs
at most 601 iterations since `t` grows by `dt` each iteration. -/
def simFuel : ℕ := 602

/-- The initial state of the `simulateJump` loop. -/
def initState (startX jumpForce holdDuration : ℚ) : SimState :=
  ⟨startX, PLAYER_GROUND_Y, jumpForce, 0, decide (0 < holdDuration), holdDuration⟩

/-- `simulateJump(startX, jumpForce, gravity, speed, holdDuration)`
(levels.ts lines 54-116). -/
def simulateJump (startX jumpForce gravity speed holdDuration : ℚ) : List Pos :=
  simulateJumpAux jumpForce gravity speed simFuel (initState startX jumpForce holdDuration)

/-! ## Clearance solver (`calculateClearanceWindow`) -/

/-- The solver's result record. -/
structure Clearance where
  earliestJumpX : ℚ
  latestJumpX : ℚ
  needsHold : Bool
  holdDuration : ℚ
deriving DecidableEq, Repr

/-- The required clearance height: obstacle top minus half player extent
minus the 10-unit safety margin (levels.ts lines 130-132). -/
def requiredClearanceY (obstacleHeight : ℚ) : ℚ :=
  (GROUND_Y - obstacleHeight) - (PLAYER_SIZE / 2 + 10)

/-- The scan of levels.ts lines 138-150: peak height (minimum `y`) and the
first/last `x` offsets whose sample satisfies the clearance height, with the
source's `-1` sentinels.  Returns `(peakY, firstAboveX, lastAboveX)`. -/
def scanPositions (requiredY : ℚ) (ps : List Pos) : ℚ × ℚ × ℚ :=
  ps.foldl
    (fun acc p =>
      (if p.y < acc.1 then p.y else acc.1,
       if p.y ≤ requiredY then (if acc.2.1 < 0 then p.x else acc.2.1) else acc.2.1,
       if p.y ≤ requiredY then p.x else acc.2.2))
    (PLAYER_GROUND_Y, -1, -1)

/-- Peak height (minimum `y`) of a trajectory (levels.ts lines 163-166). -/
def peakOf (ps : List Pos) : ℚ :=
  ps.foldl (fun acc p => if p.y < acc then p.y else acc) PLAYER_GROUND_Y

/-- The first/last qualifying offsets of a trajectory, recomputed from `-1`
sentinels (levels.ts lines 170-177). -/
def scanFirstLast (requiredY : ℚ) (ps : List Pos) : ℚ × ℚ :=
  ps.foldl
    (fun acc p =>
      (if p.y ≤ requiredY then (if acc.1 < 0 then p.x else acc.1) else acc.1,
       if p.y ≤ requiredY then p.x else acc.2))
    (-1, -1)

/-- The candidate hold durations swept by the solver: 0.1s to 1.0s in 0.1s
increments (levels.ts line 161). -/
def holdCandidates : List ℚ := [0.1, 0.2, 0.3, 0.4, 0.5, 0.6, 0.7, 0.8, 0.9, 1.0]

/-- The hold-duration sweep (levels.ts lines 161-180): accept the first
candidate whose held-jump peak satisfies the clearance height, returning it
with the recomputed first/last offsets; `none` if no candidate qualifies. -/
def sweepHold (jumpForce gravity speed requiredY : ℚ) : List ℚ → Option (ℚ × ℚ × ℚ)
  | [] => none
  | c :: rest =>
    let holdPositions := simulateJump 0 jumpForce gravity speed c
    if peakOf holdPositions ≤ requiredY then
      let fl := scanFirstLast requiredY holdPositions
      some (c, fl.1, fl.2)
    else sweepHold jumpForce gravity speed requiredY rest

/-- The decision core of the solver (levels.ts lines 134-185 before the
default substitution): returns
`(needsHold, holdDuration, firstAboveX, lastAboveX)` with the `-1` sentinels
still in place when nothing qualified. -/
def clearanceCore (obstacleHeight jumpForce gravity speed : ℚ) : Bool × ℚ × ℚ × ℚ :=
  let requiredY := requiredClearanceY obstacleHeight
  let scan := scanPositions requiredY (simulateJump 0 jumpForce gravity speed 0)
  if requiredY < scan.1 ∨ scan.2.1 < 0 then
    match sweepHold jumpForce gravity speed requiredY holdCandidates with
    | some res => (true, res.1, res.2.1, res.2.2)
    | none => (true, 0, scan.2.1, scan.2.2)
  else (false, 0, scan.2.1, scan.2.2)

/-- The default substitution of levels.ts lines 183-185: the scan results
with the `-1` sentinels replaced by the default offsets 50 and 150.
Returns `(firstAboveX, lastAboveX)`. -/
def clearanceOffsets (obstacleHeight jumpForce gravity speed : ℚ) : ℚ × ℚ :=
  let core := clearanceCore obstacleHeight jumpForce gravity speed
  (if core.2.2.1 < 0 then 50 else core.2.2.1,
   if core.2.2.2 < 0 then 150 else core.2.2.2)

/-- `calculateClearanceWindow` (levels.ts lines 119-216). -/
def calculateClearanceWindow (obstacleX obstacleWidth obstacleHeight jumpForce gravity speed : ℚ) :
    Clearance :=
  let core := clearanceCore obstacleHeight jumpForce gravity speed
  let offsets := clearanceOffsets obstacleHeight jumpForce gravity speed
  let latestJumpX := obstacleX - offsets.1
  let earliestJumpX := obstacleX + obstacleWidth - offsets.2
  ⟨min earliestJumpX latestJumpX, max earliestJumpX latestJumpX, core.1, core.2.1⟩

/-! ## Level generator (`generateJumpWindowLevel`, `generateWaveObstacles`) -/

/-- Obstacle categories (levels.ts line 11). -/
inductive ObstacleKind where
  | spike
  | block
  | gap
  | moving
deriving DecidableEq, Repr

/-- Jump-window categories (levels.ts line 20). -/
inductive WindowKind where
  | tap
  | hold
deriving DecidableEq, Repr

/-- A placed obstacle (levels.ts lines 6-14; the optional moving-obstacle
fields are never set by the generator and are omitted). -/
structure Obstacle where
  x : ℚ
  y : ℚ
  width : ℚ
  height : ℚ
  type : ObstacleKind
deriving DecidableEq, Repr

/-- A jump window (levels.ts lines 17-22); `holdDuration` is `none` exactly
when the source leaves the optional field `undefined`. -/
structure JumpWindow where
  startX : ℚ
  endX : ℚ
  type : WindowKind
  holdDuration : Option ℚ
deriving DecidableEq, Repr

/-- The generator's output: the obstacle list and the jump-window list. -/
structure GenResult where
  obstacles : List Obstacle
  jumpWindows : List JumpWindow
deriving DecidableEq, Repr

/-- The two game modes (levels.ts line 27). -/
inductive Mode where
  | gravity
  | wave
deriving DecidableEq, Repr

/-- Difficulty-scaled target window width (levels.ts line 237). -/
def baseWindowWidth (difficulty : ℚ) : ℚ := max (220 - difficulty * 12) 60

/-- Difficulty-scaled minimum spacing (levels.ts line 241). -/
def minSpacing (difficulty : ℚ) : ℚ := max (400 - difficulty * 15) 180

/-- Maximum spacing (levels.ts line 242). -/
def maxSpacing (difficulty : ℚ) : ℚ := minSpacing difficulty + 150

/-- Difficulty-scaled base obstacle height (levels.ts line 245). -/
def baseObstacleHeight (difficulty : ℚ) : ℚ := 45 + difficulty * 3

/-- Height jitter amplitude (levels.ts line 246). -/
def obstacleHeightVariation : ℚ := 15

/-- Probability of a deliberate held-jump obstacle (levels.ts line 249). -/
def holdJumpProbability (difficulty : ℚ) : ℚ := min (0.1 + difficulty * 0.04) 0.5

/-- The window-width normalization of levels.ts lines 314-330: shrink a
natural window `[lo, hi]` asymmetrically toward the target width `base`,
then clamp to a minimum 30-unit window if end precedes start. -/
def constrainWindow (base lo hi : ℚ) : ℚ × ℚ :=
  let actualWindowWidth := hi - lo
  let shrunk : ℚ × ℚ :=
    if base < actualWindowWidth then
      (lo + (actualWindowWidth - base) * 0.3, hi - (actualWindowWidth - base) * 0.7)
    else (lo, hi)
  if shrunk.2 < shrunk.1 then (shrunk.1, shrunk.1 + 30) else shrunk

/-- `constrainWindow` with the minimum-window clamp branch removed
(levels.ts lines 327-330 deleted); used to state that the clamp branch is
unreachable. -/
def constrainWindowNoClamp (base lo hi : ℚ) : ℚ × ℚ :=
  let actualWindowWidth := hi - lo
  if base < actualWindowWidth then
    (lo + (actualWindowWidth - base) * 0.3, hi - (actualWindowWidth - base) * 0.7)
  else (lo, hi)

/-- One gravity-mode obstacle choice (levels.ts lines 256-283): from the
draw `rand` and the jitter draw `jitter`, the obstacle's
`(height, width, kind)`.  The gap branch consumes no jitter draw. -/
def gravityChoice (difficulty rand jitter : ℚ) : ℚ × ℚ × ObstacleKind :=
  if rand < holdJumpProbability difficulty ∧ 3 ≤ difficulty then
    (baseObstacleHeight difficulty + 30 + jitter * 20, 50 + difficulty * 2, .block)
  else if rand < 0.5 then
    (baseObstacleHeight difficulty + jitter * obstacleHeightVariation,
     35 + difficulty * 2, .spike)
  else if rand < 0.85 then
    (baseObstacleHeight difficulty - 10 + jitter * obstacleHeightVariation,
     50 + difficulty * 3, .block)
  else
    (100, 70 + difficulty * 4, .gap)

/-- One gravity-mode iteration's emitted obstacle/window pair (levels.ts
lines 285-349): for non-gap obstacles the solver's window is normalized via
`constrainWindow` and tagged by the solver's hold requirement; for gaps the
solver's result is ignored and the fixed heuristic window is emitted. -/
def gravityEmit (difficulty speed jumpForce gravity x rand jitter : ℚ) :
    Obstacle × JumpWindow :=
  let choice := gravityChoice difficulty rand jitter
  let obstacleHeight := choice.1
  let obstacleWidth := choice.2.1
  let obstacleType := choice.2.2
  let clearance :=
    calculateClearanceWindow x obstacleWidth
      (if obstacleType = ObstacleKind.gap then 0 else obstacleHeight) jumpForce gravity speed
  if obstacleType = ObstacleKind.gap then
    (⟨x, 1, obstacleWidth, obstacleHeight, .gap⟩,
     ⟨x - 120, x - 20, .tap, none⟩)
  else
    let w := constrainWindow (baseWindowWidth difficulty)
      clearance.earliestJumpX clearance.latestJumpX
    (⟨x, 1, obstacleWidth, obstacleHeight, obstacleType⟩,
     ⟨w.1, w.2,
      if clearance.needsHold then .hold else .tap,
      if clearance.needsHold then some (clearance.holdDuration * 1000) else none⟩)

/-- The gravity-mode generator loop (levels.ts lines 251-357), with explicit
fuel, cursor `x`, random-stream index `k` and the source's (otherwise
unused) `obstacleCount`.  The gap branch consumes one random draw fewer, so
the next stream index depends on the drawn obstacle kind. -/
def generateGravityAux (difficulty length speed jumpForce gravity : ℚ) (r : ℕ → ℚ) :
    ℕ → ℚ → ℕ → ℕ → GenResult
  | 0, _, _, _ => ⟨[], []⟩
  | fuel + 1, x, k, obstacleCount =>
    if x < length - 400 then
      let choice := gravityChoice difficulty (r k) (r (k + 1))
      let kNext : ℕ := if choice.2.2 = ObstacleKind.gap then k + 1 else k + 2
      let emitted := gravityEmit difficulty speed jumpForce gravity x (r k) (r (k + 1))
      let spacing :=
        minSpacing difficulty + r kNext * (maxSpacing difficulty - minSpacing difficulty)
      let rest := generateGravityAux difficulty length speed jumpForce gravity r fuel
        (x + choice.2.1 + spacing) (kNext + 1) (obstacleCount + 1)
      ⟨emitted.1 :: rest.obstacles, emitted.2 :: rest.jumpWindows⟩
    else ⟨[], []⟩

/-- Wave-mode per-level spacing (levels.ts line 365). -/
def waveSpacing (difficulty : ℚ) : ℚ := max (180 - difficulty * 8) 100

/-- Wave-mode per-level gap size (levels.ts line 366). -/
def waveGapSize (difficulty : ℚ) : ℚ := max (0.42 - difficulty * 0.015) 0.22

/-- The wave-mode generator loop (levels.ts lines 368-402), with explicit
fuel, cursor `x` and random-stream index `k`.  Each iteration emits a
top/bottom obstacle pair and a single window. -/
def generateWaveAux (difficulty length : ℚ) (r : ℕ → ℚ) : ℕ → ℚ → ℕ → GenResult
  | 0, _, _ => ⟨[], []⟩
  | fuel + 1, x, k =>
    if x < length - 200 then
      let gapY := 0.2 + r k * 0.5
      let actualGapSize := waveGapSize difficulty + r (k + 1) * 0.08
      let obstacleWidth := 55 + difficulty * 2
      let top : Obstacle := ⟨x, 0, obstacleWidth, gapY - actualGapSize / 2, .block⟩
      let bottom : Obstacle :=
        ⟨x, gapY + actualGapSize / 2, obstacleWidth, 1 - (gapY + actualGapSize / 2), .block⟩
      let window : JumpWindow :=
        ⟨x - 100, x + obstacleWidth, if gapY < 0.4 then .hold else .tap, none⟩
      let rest := generateWaveAux difficulty length r fuel
        (x + waveSpacing difficulty + r (k + 2) * 80) (k + 3)
      ⟨top :: bottom :: rest.obstacles, window :: rest.jumpWindows⟩
    else ⟨[], []⟩

/-- `generateWaveObstacles(difficulty, length)` (levels.ts lines 361-405). -/
def generateWaveObstacles (difficulty length : ℚ) (r : ℕ → ℚ) (fuel : ℕ) : GenResult :=
  generateWaveAux difficulty length r fuel 600 0

/-- `generateJumpWindowLevel(difficulty, length, mode, speed, jumpForce,
gravity)` (levels.ts lines 219-358): wave mode delegates to
`generateWaveObstacles`, gravity mode runs the jump-window loop from the
600-unit safe start zone. -/
def generateJumpWindowLevel (difficulty length : ℚ) (mode : Mode)
    (speed jumpForce gravity : ℚ) (r : ℕ → ℚ) (fuel : ℕ) : GenResult :=
  match mode with
  | .wave => generateWaveObstacles difficulty length r fuel
  | .gravity => generateGravityAux difficulty length speed jumpForce gravity r fuel 600 0 0

/-- A constant random stream, used for concrete generator runs. -/
def rconst (q : ℚ) : ℕ → ℚ := fun _ => q

/-! ## Solver-level lemmas -/

/-- The solver's returned interval is always ordered, by the final min/max. -/
theorem clearanceWindow_ordered (ox ow oh jf g s : ℚ) :
    (calculateClearanceWindow ox ow oh jf g s).earliestJumpX ≤
      (calculateClearanceWindow ox ow oh jf g s).latestJumpX :=
  min_le_max

/-- A successful hold sweep returns a candidate from the swept list. -/
theorem sweepHold_mem {jf g s req : ℚ} :
    ∀ {l : List ℚ} {res : ℚ × ℚ × ℚ}, sweepHold jf g s req l = some res → res.1 ∈ l := by
  intro l
  induction l with
  | nil => intro res h; simp [sweepHold] at h
  | cons c rest ih =>
    intro res h
    rw [sweepHold] at h
    split at h
    · cases h
      exact List.mem_cons_self _ _
    · exact List.mem_cons_of_mem _ (ih h)

/-! ## C4: the clearance interval is well-formed, reordered by min/max -/

/-- C4: for every input, the solver returns
`earliestJumpX = min(obstacleX + width - lastOffset, obstacleX - firstOffset)`
and `latestJumpX = max(...)` of the same two raw bounds, hence always
`earliestJumpX ≤ latestJumpX`: inverted raw bounds are reordered rather than
returned inverted. -/
theorem clearance_interval_wellformed (ox ow oh jf g s : ℚ) :
    (calculateClearanceWindow ox ow oh jf g s).earliestJumpX =
      min (ox + ow - (clearanceOffsets oh jf g s).2) (ox - (clearanceOffsets oh jf g s).1) ∧
    (calculateClearanceWindow ox ow oh jf g s).latestJumpX =
      max (ox + ow - (clearanceOffsets oh jf g s).2) (ox - (clearanceOffsets oh jf g s).1) ∧
    (calculateClearanceWindow ox ow oh jf g s).earliestJumpX ≤
      (calculateClearanceWindow ox ow oh jf g s).latestJumpX :=
  ⟨rfl, rfl, clearanceWindow_ordered ox ow oh jf g s⟩

/-! ## C10: the minimum-window clamp branch is unreachable -/

/-- For an ordered input window and a nonnegative target width, the shrink
step never inverts the window, so the clamp branch of `constrainWindow` is
dead code. -/
theorem constrainWindow_clamp_dead (base lo hi : ℚ) (hlh : lo ≤ hi) (hb : 0 ≤ base) :
    constrainWindow base lo hi = constrainWindowNoClamp base lo hi := by
  unfold constrainWindow constrainWindowNoClamp
  dsimp only
  by_cases hba : base < hi - lo
  · rw [if_pos hba]
    have hno : ¬ ((lo + (hi - lo - base) * 0.3, hi - (hi - lo - base) * 0.7).2 <
        (lo + (hi - lo - base) * 0.3, hi - (hi - lo - base) * 0.7).1) := by
      dsimp only
      rw [not_lt]
      have h3 : (0.3 : ℚ) = 3 / 10 := by norm_num
      have h7 : (0.7 : ℚ) = 7 / 10 := by norm_num
      rw [h3, h7]
      linarith
    rw [if_neg hno]
  · rw [if_neg hba]
    have hno : ¬ (((lo, hi) : ℚ × ℚ).2 < ((lo, hi) : ℚ × ℚ).1) := by
      dsimp only
      exact not_lt.2 hlh
    rw [if_neg hno]

/-- The difficulty-scaled target window width is nonnegative. -/
theorem baseWindowWidth_nonneg (difficulty : ℚ) : 0 ≤ baseWindowWidth difficulty :=
  le_trans (by norm_num) (le_max_right (220 - difficulty * 12) 60)

/-- C10: in the gravity generator, for every non-gap obstacle the
minimum-window clamp branch (`windowEnd < windowStart` after the shrink) is
unreachable: applied to any solver result, `constrainWindow` coincides with
the clamp-free `constrainWindowNoClamp`, because the solver guarantees
`earliestJumpX ≤ latestJumpX` and the shrink removes exactly the excess. -/
theorem gravity_window_clamp_unreachable (difficulty ox ow oh jf g s : ℚ) :
    constrainWindow (baseWindowWidth difficulty)
        (calculateClearanceWindow ox ow oh jf g s).earliestJumpX
        (calculateClearanceWindow ox ow oh jf g s).latestJumpX =
      constrainWindowNoClamp (baseWindowWidth difficulty)
        (calculateClearanceWindow ox ow oh jf g s).earliestJumpX
        (calculateClearanceWindow ox ow oh jf g s).latestJumpX :=
  constrainWindow_clamp_dead _ _ _ (clearanceWindow_ordered ox ow oh jf g s)
    (baseWindowWidth_nonneg difficulty)

/-! ## C8: hold duration versus gravity -/

/-- Amended C8: the hold duration returned by the solver is either 0 (tap
suffices, or the sweep failed and fell back) or one of the ten sampled
candidates 0.1s..1.0s. -/
theorem holdDuration_sampled (ox ow oh jf g s : ℚ) :
    (calculateClearanceWindow ox ow oh jf g s).holdDuration = 0 ∨
      (calculateClearanceWindow ox ow oh jf g s).holdDuration ∈ holdCandidates := by
  show (clearanceCore oh jf g s).2.1 = 0 ∨ (clearanceCore oh jf g s).2.1 ∈ holdCandidates
  unfold clearanceCore
  dsimp only
  split
  · split
    · next res hres => exact Or.inr (sweepHold_mem hres)
    · exact Or.inl rfl
  · exact Or.inl rfl

/-- C8 counterexample: for the obstacle at x=1000, width 50, height 5, with
impulse -300 and speed 0, raising gravity from 2700 to 2800 *decreases* the
required hold duration returned by the solver (0.3s down to 0.2s): at the
higher gravity the arc is shorter, so the held-jump rebounce occurs earlier
and an earlier sweep candidate already clears.  The solver's hold duration
is therefore not monotone in gravity. -/
theorem holdDuration_not_monotone :
    (2700 : ℚ) < 2800 ∧
      (calculateClearanceWindow 1000 50 5 (-300) 2800 0).holdDuration <
        (calculateClearanceWindow 1000 50 5 (-300) 2700 0).holdDuration := by
  decide

/-! ## C9: nonnegative impulse yields the empty trajectory -/

/-- With `0 ≤ jumpForce` the loop guard `y < PLAYER_GROUND_Y || vy < 0` is
false at the initial state, so the first iteration ends the loop. -/
theorem simStep_done_of_nonneg (startX jf g s hd : ℚ) (h : 0 ≤ jf) :
    simStep jf g s (initState startX jf hd) = .done := by
  unfold simStep initState
  rw [if_neg]
  dsimp only
  rw [not_or]
  exact ⟨lt_irrefl PLAYER_GROUND_Y, not_lt.2 h⟩

/-- C9: for every nonnegative impulse, any start position, gravity, speed
and hold duration, the simulator returns the empty sequence: not even the
launch sample is emitted. -/
theorem sim_empty_of_nonneg_impulse (startX jf g s hd : ℚ) (h : 0 ≤ jf) :
    simulateJump startX jf g s hd = [] := by
  have h602 : simFuel = 601 + 1 := rfl
  unfold simulateJump
  rw [h602, simulateJumpAux, simStep_done_of_nonneg startX jf g s hd h]

/-- C9 witness: at `jumpForce = 5` (nonnegative) the simulator emits nothing. -/
theorem sim_empty_of_nonneg_impulse_witness :
    (0 : ℚ) ≤ 5 ∧ simulateJump 0 5 650 180 0 = [] :=
  ⟨by norm_num, sim_empty_of_nonneg_impulse 0 5 650 180 0 (by norm_num)⟩

/-! ## C6: the simulator terminates within the 10-second safety bound -/

/-- The timestep is positive. -/
theorem dt_pos : (0 : ℚ) < dt := by norm_num [dt]

/-- A continuing iteration emits the top-of-loop sample at the entry time,
advances time by exactly one timestep, and only continues if the safety
bound has not fired. -/
theorem simStep_emit_spec {jf g s : ℚ} {st st2 : SimState} {p : Pos}
    (h : simStep jf g s st = .emit p st2) :
    p.t = st.t ∧ st2.t = st.t + dt ∧ ¬ (10 < st2.t) := by
  unfold simStep at h
  dsimp only at h
  repeat' split at h
  all_goals first
    | (injection h with h1 h2
       subst h1
       subst h2
       exact ⟨rfl, rfl, by assumption⟩)
    | injection h

/-- A ground-collision iteration emits the entry sample and the landing
sample one timestep later. -/
theorem simStep_last_spec {jf g s : ℚ} {st : SimState} {p q : Pos}
    (h : simStep jf g s st = .last p q) :
    p.t = st.t ∧ q.t = st.t + dt := by
  unfold simStep at h
  dsimp only at h
  repeat' split at h
  all_goals first
    | (injection h with h1 h2
       subst h1
       subst h2
       exact ⟨rfl, rfl⟩)
    | injection h

/-- A safety-break iteration emits only the entry sample. -/
theorem simStep_stop_spec {jf g s : ℚ} {st : SimState} {p : Pos}
    (h : simStep jf g s st = .stop p) : p.t = st.t := by
  unfold simStep at h
  dsimp only at h
  repeat' split at h
  all_goals first
    | (injection h with h1
       subst h1
       rfl)
    | injection h

/-- Every sample of the loop carries a time at most one timestep past the
10-second safety bound, provided the loop is entered at time at most 10. -/
theorem simulateJumpAux_t_bound (jf g s : ℚ) :
    ∀ (fuel : ℕ) (st : SimState), st.t ≤ 10 →
      ∀ p ∈ simulateJumpAux jf g s fuel st, p.t ≤ 10 + dt := by
  intro fuel
  induction fuel with
  | zero => intro st hst p hp; simp [simulateJumpAux] at hp
  | succ fuel ih =>
    intro st hst p hp
    rw [simulateJumpAux] at hp
    cases hstep : simStep jf g s st with
    | emit pe st2 =>
      rw [hstep] at hp
      dsimp only at hp
      rcases List.mem_cons.1 hp with rfl | hp2
      · calc p.t = st.t := (simStep_emit_spec hstep).1
          _ ≤ 10 := hst
          _ ≤ 10 + dt := le_add_of_nonneg_right dt_pos.le
      · have hspec := simStep_emit_spec hstep
        have hst2 : st2.t ≤ 10 := by
          rcases lt_or_le (10 : ℚ) st2.t with hgt | hle
          · exact absurd hgt hspec.2.2
          · exact hle
        exact ih st2 hst2 p hp2
    | last pl ql =>
      rw [hstep] at hp
      dsimp only at hp
      have hspec := simStep_last_spec hstep
      rcases List.mem_cons.1 hp with rfl | hp2
      · calc p.t = st.t := hspec.1
          _ ≤ 10 := hst
          _ ≤ 10 + dt := le_add_of_nonneg_right dt_pos.le
      · rcases List.mem_cons.1 hp2 with rfl | hp3
        · calc p.t = st.t + dt := hspec.2
            _ ≤ 10 + dt := add_le_add_right hst dt
        · simp at hp3
    | stop ps =>
      rw [hstep] at hp
      dsimp only at hp
      rcases List.mem_cons.1 hp with rfl | hp2
      · calc p.t = st.t := simStep_stop_spec hstep
          _ ≤ 10 := hst
          _ ≤ 10 + dt := le_add_of_nonneg_right dt_pos.le
      · simp at hp2
    | done =>
      rw [hstep] at hp
      simp at hp

/-- The loop's result does not depend on the fuel once the fuel covers the
601 iterations the 10-second safety bound allows: the loop always exits on
its own. -/
theorem simulateJumpAux_fuel_stable (jf g s : ℚ) :
    ∀ (f1 f2 n : ℕ) (st : SimState), st.t = n * dt →
      602 ≤ n + f1 → 602 ≤ n + f2 → 1 ≤ f1 → 1 ≤ f2 →
      simulateJumpAux jf g s f1 st = simulateJumpAux jf g s f2 st := by
  intro f1
  induction f1 with
  | zero => intro f2 n st _ _ _ hf1 _; exact absurd hf1 (by omega)
  | succ f1 ih =>
    intro f2 n st hn h1 h2 _ hf2
    obtain ⟨f2p, rfl⟩ : ∃ m, f2 = m + 1 := ⟨f2 - 1, by omega⟩
    rw [simulateJumpAux, simulateJumpAux]
    cases hstep : simStep jf g s st with
    | emit pe st2 =>
      dsimp only
      have hspec := simStep_emit_spec hstep
      have hst2 : st2.t = (n + 1 : ℕ) * dt := by
        rw [hspec.2.1, hn]
        push_cast
        ring
      have hle : ((n : ℚ) + 1) * dt ≤ 10 := by
        have hx := not_lt.1 hspec.2.2
        rw [hst2] at hx
        push_cast at hx
        exact hx
      have hn600 : n + 1 ≤ 600 := by
        have h600 : ((n : ℚ) + 1) ≤ 600 := by
          rw [dt] at hle
          linarith
        exact_mod_cast h600
      have heq := ih f2p (n + 1) st2 hst2 (by omega) (by omega) (by omega) (by omega)
      rw [heq]
    | last pl ql => rfl
    | stop ps => rfl
    | done => rfl

/-- C6: for every input (including degenerate ones such as zero gravity),
the simulator returns a finite sample list whose elapsed times never exceed
the 10-simulated-second safety bound by more than one timestep, and the
while-loop always exits on its own: giving the loop any extra fuel beyond
`simFuel` does not change the result. -/
theorem simulator_terminates_bounded (startX jf g s hd : ℚ) :
    (∀ p ∈ simulateJump startX jf g s hd, p.t ≤ 10 + dt) ∧
    (∀ extra : ℕ, simulateJumpAux jf g s (simFuel + extra) (initState startX jf hd) =
      simulateJump startX jf g s hd) := by
  constructor
  · intro p hp
    exact simulateJumpAux_t_bound jf g s simFuel (initState startX jf hd) (by norm_num [initState]) p hp
  · intro extra
    exact simulateJumpAux_fuel_stable jf g s (simFuel + extra) simFuel 0 (initState startX jf hd)
      (by norm_num [initState]) (by simp [simFuel]) (by simp [simFuel])
      (by simp [simFuel]; omega) (by simp [simFuel])

/-- C6 witness: the launch sample of a quick concrete jump obeys the time
bound, and adding 3 extra fuel does not change that run. -/
theorem simulator_terminates_bounded_witness :
    (Pos.mk 0 698 0).t ≤ 10 + dt ∧
    simulateJumpAux (-1) 3600 0 (simFuel + 3) (initState 0 (-1) 0) =
      simulateJump 0 (-1) 3600 0 0 :=
  ⟨(simulator_terminates_bounded 0 (-1) 3600 0 0).1 (Pos.mk 0 698 0) (by decide),
   (simulator_terminates_bounded 0 (-1) 3600 0 0).2 3⟩

/-! ## C1: obstacle/window list alignment -/

/-- Each gravity-mode iteration emits exactly one obstacle and one window. -/
theorem generateGravityAux_align (difficulty length speed jf g : ℚ) (r : ℕ → ℚ) :
    ∀ (fuel : ℕ) (x : ℚ) (k c : ℕ),
      (generateGravityAux difficulty length speed jf g r fuel x k c).obstacles.length =
        (generateGravityAux difficulty length speed jf g r fuel x k c).jumpWindows.length := by
  intro fuel
  induction fuel with
  | zero => intro x k c; rfl
  | succ fuel ih =>
    intro x k c
    rw [generateGravityAux]
    split
    · dsimp only
      rw [List.length_cons, List.length_cons, ih]
    · rfl

/-- Each wave-mode iteration emits exactly two obstacles and one window. -/
theorem generateWaveAux_align (difficulty length : ℚ) (r : ℕ → ℚ) :
    ∀ (fuel : ℕ) (x : ℚ) (k : ℕ),
      (generateWaveAux difficulty length r fuel x k).obstacles.length =
        2 * (generateWaveAux difficulty length r fuel x k).jumpWindows.length := by
  intro fuel
  induction fuel with
  | zero => intro x k; rfl
  | succ fuel ih =>
    intro x k
    rw [generateWaveAux]
    split
    · dsimp only
      rw [List.length_cons, List.length_cons, List.length_cons, ih]
      ring
    · rfl

/-- Amended C1: in gravity mode the emitted obstacle and jump-window lists
are index-aligned with equal length; in wave mode each iteration pushes a
top/bottom obstacle pair but only a single window, so the obstacle list is
exactly twice as long as the window list. -/
theorem generator_alignment_by_mode (difficulty length : ℚ) (mode : Mode)
    (speed jf g : ℚ) (r : ℕ → ℚ) (fuel : ℕ) :
    (generateJumpWindowLevel difficulty length mode speed jf g r fuel).obstacles.length =
      (match mode with
        | .gravity => 1
        | .wave => 2) *
        (generateJumpWindowLevel difficulty length mode speed jf g r fuel).jumpWindows.length := by
  cases mode with
  | gravity =>
    rw [one_mul]
    exact generateGravityAux_align difficulty length speed jf g r fuel 600 0 0
  | wave =>
    exact generateWaveAux_align difficulty length r fuel 600 0

/-- C1 counterexample: a concrete wave-mode generation emits 4 obstacles but
only 2 jump windows, so the two lists do not have equal length. -/
theorem wave_alignment_fails :
    ¬ ((generateJumpWindowLevel 1 1001 .wave 192 (-426) 670 (rconst 0) 6).obstacles.length =
       (generateJumpWindowLevel 1 1001 .wave 192 (-426) 670 (rconst 0) 6).jumpWindows.length) := by
  decide

/-! ## C2: hold metadata -/

/-- The window emitted by a gravity-mode iteration carries a hold duration
exactly when it is tagged `hold`. -/
theorem gravityEmit_metadata (difficulty speed jf g x rand jitter : ℚ) :
    ((gravityEmit difficulty speed jf g x rand jitter).2.holdDuration.isSome = true ↔
      (gravityEmit difficulty speed jf g x rand jitter).2.type = .hold) := by
  unfold gravityEmit
  dsimp only
  by_cases hgap : (gravityChoice difficulty rand jitter).2.2 = ObstacleKind.gap
  · rw [if_pos hgap]
    simp
  · rw [if_neg hgap]
    by_cases hnh : (calculateClearanceWindow x (gravityChoice difficulty rand jitter).2.1
        (if (gravityChoice difficulty rand jitter).2.2 = ObstacleKind.gap then 0
          else (gravityChoice difficulty rand jitter).1) jf g speed).needsHold = true
    · rw [if_pos hnh, if_pos hnh]
      simp
    · rw [if_neg hnh, if_neg hnh]
      simp

/-- Every window of a gravity-mode generation satisfies the hold-metadata
consistency. -/
theorem generateGravityAux_metadata (difficulty length speed jf g : ℚ) (r : ℕ → ℚ) :
    ∀ (fuel : ℕ) (x : ℚ) (k c : ℕ) (w : JumpWindow),
      w ∈ (generateGravityAux difficulty length speed jf g r fuel x k c).jumpWindows →
      (w.holdDuration.isSome = true ↔ w.type = .hold) := by
  intro fuel
  induction fuel with
  | zero => intro x k c w hw; simp [generateGravityAux] at hw
  | succ fuel ih =>
    intro x k c w hw
    rw [generateGravityAux] at hw
    split at hw
    · dsimp only at hw
      rcases List.mem_cons.1 hw with rfl | hw2
      · exact gravityEmit_metadata difficulty speed jf g x (r k) (r (k + 1))
      · exact ih _ _ _ w hw2
    · simp at hw

/-- No wave-mode window ever carries a hold duration. -/
theorem generateWaveAux_no_holdDuration (difficulty length : ℚ) (r : ℕ → ℚ) :
    ∀ (fuel : ℕ) (x : ℚ) (k : ℕ) (w : JumpWindow),
      w ∈ (generateWaveAux difficulty length r fuel x k).jumpWindows →
      w.holdDuration = none := by
  intro fuel
  induction fuel with
  | zero => intro x k w hw; simp [generateWaveAux] at hw
  | succ fuel ih =>
    intro x k w hw
    rw [generateWaveAux] at hw
    split at hw
    · dsimp only at hw
      rcases List.mem_cons.1 hw with rfl | hw2
      · rfl
      · exact ih _ _ w hw2
    · simp at hw

/-- Amended C2: in gravity mode, `holdDuration` is present iff the window is
tagged `hold`; in wave mode `holdDuration` is never present, even though
wave windows can be tagged `hold`. -/
theorem hold_metadata_by_mode (difficulty length speed jf g : ℚ) (r : ℕ → ℚ) (fuel : ℕ) :
    (∀ w ∈ (generateJumpWindowLevel difficulty length .gravity speed jf g r fuel).jumpWindows,
      (w.holdDuration.isSome = true ↔ w.type = .hold)) ∧
    (∀ w ∈ (generateJumpWindowLevel difficulty length .wave speed jf g r fuel).jumpWindows,
      w.holdDuration = none) :=
  ⟨fun w hw => generateGravityAux_metadata difficulty length speed jf g r fuel 600 0 0 w hw,
   fun w hw => generateWaveAux_no_holdDuration difficulty length r fuel 600 0 w hw⟩

/-- C2 counterexample: a concrete wave-mode generation emits a window tagged
`hold` with no `holdDuration`, violating the "present iff hold" claim. -/
theorem hold_metadata_fails_in_wave :
    ¬ (∀ w ∈ (generateJumpWindowLevel 1 1001 .wave 192 (-426) 670 (rconst 0) 6).jumpWindows,
        (w.holdDuration.isSome = true ↔ w.type = .hold)) := by
  decide

/-- C2 witness: a tap window of a concrete gravity-mode run satisfies the
equivalence, and a hold-tagged window of a concrete wave-mode run has no
duration. -/
theorem hold_metadata_by_mode_witness :
    ((JumpWindow.mk 429 568 .tap none).holdDuration.isSome = true ↔
      (JumpWindow.mk 429 568 .tap none).type = .hold) ∧
    (JumpWindow.mk 500 657 .hold none).holdDuration = none :=
  ⟨(hold_metadata_by_mode 1 1001 192 (-426) 670 (rconst 0) 6).1
      (JumpWindow.mk 429 568 .tap none) (by decide),
   (hold_metadata_by_mode 1 1001 192 (-426) 670 (rconst 0) 6).2
      (JumpWindow.mk 500 657 .hold none) (by decide)⟩

/-! ## C5: gap windows are the fixed heuristic -/

/-- When an iteration emits a gap obstacle, its window is the fixed
heuristic `[x - 120, x - 20]` tagged `tap`, with no hold duration: the
solver's result is not consulted. -/
theorem gravityEmit_gap (difficulty speed jf g x rand jitter : ℚ)
    (h : (gravityEmit difficulty speed jf g x rand jitter).1.type = .gap) :
    (gravityEmit difficulty speed jf g x rand jitter).2 =
      ⟨(gravityEmit difficulty speed jf g x rand jitter).1.x - 120,
       (gravityEmit difficulty speed jf g x rand jitter).1.x - 20, .tap, none⟩ := by
  by_cases hgap : (gravityChoice difficulty rand jitter).2.2 = ObstacleKind.gap
  · unfold gravityEmit
    dsimp only
    rw [if_pos hgap]
  · unfold gravityEmit at h
    dsimp only at h
    rw [if_neg hgap] at h
    by_cases hnh : (calculateClearanceWindow x (gravityChoice difficulty rand jitter).2.1
        (if (gravityChoice difficulty rand jitter).2.2 = ObstacleKind.gap then 0
          else (gravityChoice difficulty rand jitter).1) jf g speed).needsHold = true
    · exact absurd h hgap
    · exact absurd h hgap

/-- C5: for every gap obstacle emitted by a gravity-mode generation (any
difficulty, any parameters, any random stream), the index-aligned window is
`[obstacleX - 120, obstacleX - 20]` tagged `tap` with no hold duration. -/
theorem gap_window_heuristic (difficulty length speed jf g : ℚ) (r : ℕ → ℚ) (fuel : ℕ) :
    ∀ (i : ℕ) (ob : Obstacle) (w : JumpWindow),
      (generateJumpWindowLevel difficulty length .gravity speed jf g r fuel).obstacles.get? i =
        some ob →
      (generateJumpWindowLevel difficulty length .gravity speed jf g r fuel).jumpWindows.get? i =
        some w →
      ob.type = .gap →
      w = ⟨ob.x - 120, ob.x - 20, .tap, none⟩ := by
  show ∀ (i : ℕ) (ob : Obstacle) (w : JumpWindow),
      (generateGravityAux difficulty length speed jf g r fuel 600 0 0).obstacles.get? i = some ob →
      (generateGravityAux difficulty length speed jf g r fuel 600 0 0).jumpWindows.get? i = some w →
      ob.type = .gap → w = ⟨ob.x - 120, ob.x - 20, .tap, none⟩
  have main : ∀ (fuel : ℕ) (x : ℚ) (k c : ℕ) (i : ℕ) (ob : Obstacle) (w : JumpWindow),
      (generateGravityAux difficulty length speed jf g r fuel x k c).obstacles.get? i = some ob →
      (generateGravityAux difficulty length speed jf g r fuel x k c).jumpWindows.get? i = some w →
      ob.type = .gap → w = ⟨ob.x - 120, ob.x - 20, .tap, none⟩ := by
    intro fuel
    induction fuel with
    | zero => intro x k c i ob w hob _ _; simp [generateGravityAux] at hob
    | succ fuel ih =>
      intro x k c i ob w hob hw hgap
      rw [generateGravityAux] at hob hw
      by_cases hx : x < length - 400
      · rw [if_pos hx] at hob hw
        dsimp only at hob hw
        cases i with
        | zero =>
          rw [List.get?_cons_zero] at hob hw
          injection hob with hob1
          injection hw with hw1
          subst hob1
          subst hw1
          exact gravityEmit_gap difficulty speed jf g x (r k) (r (k + 1)) hgap
        | succ i =>
          rw [List.get?_cons_succ] at hob hw
          exact ih _ _ _ i ob w hob hw hgap
      · rw [if_neg hx] at hob
        simp at hob
  exact main fuel 600 0 0

/-- C5 witness: a concrete difficulty-1 run whose first obstacle is a gap at
x = 600 emits exactly the heuristic window `[480, 580]` tagged `tap`. -/
theorem gap_window_heuristic_witness :
    (generateJumpWindowLevel 1 1001 .gravity 192 (-426) 670 (rconst 0.9) 4).obstacles.get? 0 =
        some (Obstacle.mk 600 1 74 100 .gap) ∧
    (generateJumpWindowLevel 1 1001 .gravity 192 (-426) 670 (rconst 0.9) 4).jumpWindows.get? 0 =
        some (JumpWindow.mk 480 580 .tap none) ∧
    (Obstacle.mk 600 1 74 100 ObstacleKind.gap).type = .gap ∧
    JumpWindow.mk 480 580 .tap none =
      ⟨(Obstacle.mk 600 1 74 100 ObstacleKind.gap).x - 120,
       (Obstacle.mk 600 1 74 100 ObstacleKind.gap).x - 20, .tap, none⟩ :=
  ⟨by decide, by decide, rfl,
   gap_window_heuristic 1 1001 192 (-426) 670 (rconst 0.9) 4 0
     (Obstacle.mk 600 1 74 100 .gap) (JumpWindow.mk 480 580 .tap none)
     (by decide) (by decide) rfl⟩

/-! ## C3: the forced hold at difficulty 1 is absent from the production code -/

/-- C3 evaluation at the failing input: a difficulty-1 gravity-mode level
with three obstacles (none of them hold-type) in which the generator never
forces a hold: all three emitted windows are tagged `tap`.  The production
generator's hold branch requires `difficulty >= 3`, and no forcing mechanism
exists; the forced-hold policy appears only in the repository's standalone
test scripts. -/
theorem difficulty1_run_has_no_hold_window :
    (generateJumpWindowLevel 1 2000 .gravity 192 (-426) 670 (rconst 0.3) 8).obstacles.length = 3 ∧
    (generateJumpWindowLevel 1 2000 .gravity 192 (-426) 670 (rconst 0.3) 8).jumpWindows.map
        JumpWindow.type = [.tap, .tap, .tap] := by
  decide

/-! ## The test-script variant of the gravity generator

The repository's standalone test scripts (the inlined generator of
`test_levels.mjs` and `test_levels_detailed.mjs`) carry a variant of
`generateJumpWindowLevel` that *does* implement the forced-hold policy:
`forceHeldForLevel1 = difficulty === 1 && !hasHadHeldJump && obstacleCount >= 2`,
a `difficulty >= 2` gate on random holds, and windows tagged `hold` when the
obstacle was deliberately a hold obstacle or the solver required one.  It is
embedded here to show that this variant satisfies the forced-hold guarantee
that the production module lacks. -/

/-- The test-script variant's obstacle choice (test script lines 139-164).
Returns `(height, width, kind, isHoldJump)`. -/
def gravityChoiceTest (difficulty rand jitter : ℚ) (hasHad : Bool) (count : ℕ) :
    ℚ × ℚ × ObstacleKind × Bool :=
  let forceHeldForLevel1 : Bool := decide (difficulty = 1) && !hasHad && decide (2 ≤ count)
  let isHoldJump : Bool := forceHeldForLevel1 ||
    (decide (rand < holdJumpProbability difficulty) && decide (2 ≤ difficulty))
  if isHoldJump = true then
    (baseObstacleHeight difficulty + 30 + jitter * 20, 50 + difficulty * 2, .block, true)
  else if rand < 0.5 then
    (baseObstacleHeight difficulty + jitter * obstacleHeightVariation,
     35 + difficulty * 2, .spike, false)
  else if rand < 0.85 then
    (baseObstacleHeight difficulty - 10 + jitter * obstacleHeightVariation,
     50 + difficulty * 3, .block, false)
  else
    (100, 70 + difficulty * 4, .gap, false)

/-- The test-script variant's emitted obstacle/window pair (test script
lines 166-200): a window is tagged `hold` when the obstacle was a deliberate
hold obstacle *or* the solver required a hold.  (The script's
`clearance.holdDuration ?? 0.2` never takes the `0.2` arm, since the
solver's `holdDuration` is always a number.) -/
def gravityEmitTest (difficulty speed jumpForce gravity x rand jitter : ℚ)
    (hasHad : Bool) (count : ℕ) : Obstacle × JumpWindow :=
  let choice := gravityChoiceTest difficulty rand jitter hasHad count
  let obstacleHeight := choice.1
  let obstacleWidth := choice.2.1
  let obstacleType := choice.2.2.1
  let isHoldJump := choice.2.2.2
  let clearance :=
    calculateClearanceWindow x obstacleWidth
      (if obstacleType = ObstacleKind.gap then 0 else obstacleHeight) jumpForce gravity speed
  if obstacleType = ObstacleKind.gap then
    (⟨x, 1, obstacleWidth, obstacleHeight, .gap⟩,
     ⟨x - 120, x - 20, .tap, none⟩)
  else
    let w := constrainWindow (baseWindowWidth difficulty)
      clearance.earliestJumpX clearance.latestJumpX
    (⟨x, 1, obstacleWidth, obstacleHeight, obstacleType⟩,
     ⟨w.1, w.2,
      if isHoldJump || clearance.needsHold then .hold else .tap,
      if isHoldJump || clearance.needsHold then some (clearance.holdDuration * 1000)
      else none⟩)

/-- The test-script variant's generator loop (test script lines 123-208),
threading the `hasHadHeldJump` flag set once a hold obstacle is placed. -/
def generateGravityTestAux (difficulty length speed jumpForce gravity : ℚ) (r : ℕ → ℚ) :
    ℕ → ℚ → ℕ → ℕ → Bool → GenResult
  | 0, _, _, _, _ => ⟨[], []⟩
  | fuel + 1, x, k, count, hasHad =>
    if x < length - 400 then
      let choice := gravityChoiceTest difficulty (r k) (r (k + 1)) hasHad count
      let kNext : ℕ := if choice.2.2.1 = ObstacleKind.gap then k + 1 else k + 2
      let emitted := gravityEmitTest difficulty speed jumpForce gravity x (r k) (r (k + 1))
        hasHad count
      let spacing :=
        minSpacing difficulty + r kNext * (maxSpacing difficulty - minSpacing difficulty)
      let rest := generateGravityTestAux difficulty length speed jumpForce gravity r fuel
        (x + choice.2.1 + spacing) (kNext + 1) (count + 1) (hasHad || choice.2.2.2)
      ⟨emitted.1 :: rest.obstacles, emitted.2 :: rest.jumpWindows⟩
    else ⟨[], []⟩

/-- The test-script variant's `generateJumpWindowLevel` (gravity only). -/
def generateJumpWindowLevelTest (difficulty length speed jumpForce gravity : ℚ)
    (r : ℕ → ℚ) (fuel : ℕ) : GenResult :=
  generateGravityTestAux difficulty length speed jumpForce gravity r fuel 600 0 0 false

/-- At difficulty 1 with no hold placed yet and at least two prior
obstacles, the test-script variant forces a hold obstacle. -/
theorem gravityChoiceTest_forced (rand jitter : ℚ) (count : ℕ) (hc : 2 ≤ count) :
    (gravityChoiceTest 1 rand jitter false count).2.2 = (ObstacleKind.block, true) := by
  unfold gravityChoiceTest
  have h1 : decide ((1 : ℚ) = 1) = true := by decide
  have h2 : decide (2 ≤ count) = true := decide_eq_true hc
  rw [h1, h2]
  rfl

/-- A deliberately chosen hold obstacle always yields a `hold`-tagged
window in the test-script variant. -/
theorem gravityEmitTest_hold (difficulty speed jf g x rand jitter : ℚ)
    (hasHad : Bool) (count : ℕ)
    (hblock : (gravityChoiceTest difficulty rand jitter hasHad count).2.2.1 =
      ObstacleKind.block)
    (hhold : (gravityChoiceTest difficulty rand jitter hasHad count).2.2.2 = true) :
    (gravityEmitTest difficulty speed jf g x rand jitter hasHad count).2.type = .hold := by
  unfold gravityEmitTest
  dsimp only
  rw [hblock]
  rw [if_neg (by simp)]
  dsimp only
  rw [hhold]
  rfl

/-- At difficulty 1 with fewer than two prior obstacles, the test-script
variant never picks a deliberate hold obstacle (the random-hold path
requires difficulty at least 2). -/
theorem gravityChoiceTest_low_count (rand jitter : ℚ) (count : ℕ) (hc : count < 2) :
    (gravityChoiceTest 1 rand jitter false count).2.2.2 = false := by
  unfold gravityChoiceTest
  have h2 : decide (2 ≤ count) = false := decide_eq_false (by omega)
  have hd2 : decide ((2 : ℚ) ≤ 1) = false := by decide
  rw [h2, hd2]
  dsimp only [Bool.and_false, Bool.or_false]
  rw [if_neg (by simp)]
  split
  · rfl
  · split
    · rfl
    · rfl

/-- Once two obstacles have passed without a hold, the test-script
variant's next emitted window (if any) is tagged `hold`. -/
theorem generateGravityTestAux_forced (len s jf g : ℚ) (r : ℕ → ℚ) :
    ∀ (fuel : ℕ) (x : ℚ) (k count : ℕ), 2 ≤ count →
      1 ≤ (generateGravityTestAux 1 len s jf g r fuel x k count false).jumpWindows.length →
      ∃ w ∈ (generateGravityTestAux 1 len s jf g r fuel x k count false).jumpWindows,
        w.type = .hold := by
  intro fuel x k count hc hlen
  cases fuel with
  | zero => simp [generateGravityTestAux] at hlen
  | succ fuel =>
    rw [generateGravityTestAux] at hlen ⊢
    by_cases hx : x < len - 400
    · rw [if_pos hx]
      refine ⟨(gravityEmitTest 1 s jf g x (r k) (r (k + 1)) false count).2,
        List.mem_cons_self _ _, ?_⟩
      have hforced := gravityChoiceTest_forced (r k) (r (k + 1)) count hc
      have hblock : (gravityChoiceTest 1 (r k) (r (k + 1)) false count).2.2.1 =
          ObstacleKind.block := by rw [hforced]
      have hhold : (gravityChoiceTest 1 (r k) (r (k + 1)) false count).2.2.2 = true := by
        rw [hforced]
      exact gravityEmitTest_hold 1 s jf g x (r k) (r (k + 1)) false count hblock hhold
    · rw [if_neg hx] at hlen
      simp at hlen

/-- At difficulty 1, a test-script-variant run with no hold placed yet
produces a `hold`-tagged window as soon as it still has `3 - count` windows
to emit. -/
theorem generateGravityTestAux_teaches (len s jf g : ℚ) (r : ℕ → ℚ) :
    ∀ (fuel : ℕ) (x : ℚ) (k count : ℕ), count ≤ 2 →
      3 - count ≤ (generateGravityTestAux 1 len s jf g r fuel x k count false).jumpWindows.length →
      ∃ w ∈ (generateGravityTestAux 1 len s jf g r fuel x k count false).jumpWindows,
        w.type = .hold := by
  intro fuel
  induction fuel with
  | zero =>
    intro x k count hc hlen
    simp [generateGravityTestAux] at hlen
    omega
  | succ fuel ih =>
    intro x k count hc hlen
    rcases Nat.lt_or_ge count 2 with hlow | hhigh
    · rw [generateGravityTestAux] at hlen ⊢
      by_cases hx : x < len - 400
      · rw [if_pos hx] at hlen ⊢
        dsimp only at hlen ⊢
        have hflag : (false || (gravityChoiceTest 1 (r k) (r (k + 1)) false count).2.2.2) =
            false := by
          rw [gravityChoiceTest_low_count (r k) (r (k + 1)) count hlow]
          rfl
        rw [hflag] at hlen ⊢
        by_cases hw0 : (gravityEmitTest 1 s jf g x (r k) (r (k + 1)) false count).2.type =
            WindowKind.hold
        · exact ⟨_, List.mem_cons_self _ _, hw0⟩
        · rw [List.length_cons] at hlen
          obtain ⟨w, hwmem, hwt⟩ :=
            ih (x + (gravityChoiceTest 1 (r k) (r (k + 1)) false count).2.1 +
                (minSpacing 1 +
                  r (if (gravityChoiceTest 1 (r k) (r (k + 1)) false count).2.2.1 =
                      ObstacleKind.gap then k + 1 else k + 2) *
                    (maxSpacing 1 - minSpacing 1)))
              ((if (gravityChoiceTest 1 (r k) (r (k + 1)) false count).2.2.1 =
                  ObstacleKind.gap then k + 1 else k + 2) + 1)
              (count + 1) (by omega) (by omega)
          exact ⟨w, List.mem_cons_of_mem _ hwmem, hwt⟩
      · rw [if_neg hx] at hlen
        simp at hlen
        omega
    · exact generateGravityTestAux_forced len s jf g r (fuel + 1) x k count hhigh (by omega)

/-- The claim's guarantee holds for the test-script variant: every
difficulty-1 run that emits at least three windows contains a `hold`-tagged
window.  This is the behavior the production module is missing. -/
theorem generateGravityTest_teaches_hold (len s jf g : ℚ) (r : ℕ → ℚ) (fuel : ℕ)
    (h : 3 ≤ (generateJumpWindowLevelTest 1 len s jf g r fuel).jumpWindows.length) :
    ∃ w ∈ (generateJumpWindowLevelTest 1 len s jf g r fuel).jumpWindows, w.type = .hold :=
  generateGravityTestAux_teaches len s jf g r fuel 600 0 0 (by omega) h

/-! ## C7: the solver's fallback to default offsets -/

/-- C7: whenever the tap scan finds no qualifying offset (both sentinels
still negative) and the hold-duration sweep finds no qualifying candidate,
the solver substitutes the default offsets 50 and 150 and still returns a
well-formed window — `needsHold = true`, `holdDuration = 0`, and the interval
is the ordered pair built from `obstacleX + width - 150` and
`obstacleX - 50` — instead of signaling failure. -/
theorem solver_fallback_defaults (ox ow oh jf g s : ℚ)
    (hf : (scanPositions (requiredClearanceY oh) (simulateJump 0 jf g s 0)).2.1 < 0)
    (hl : (scanPositions (requiredClearanceY oh) (simulateJump 0 jf g s 0)).2.2 < 0)
    (hsweep : sweepHold jf g s (requiredClearanceY oh) holdCandidates = none) :
    calculateClearanceWindow ox ow oh jf g s =
      ⟨min (ox + ow - 150) (ox - 50), max (ox + ow - 150) (ox - 50), true, 0⟩ ∧
    (calculateClearanceWindow ox ow oh jf g s).earliestJumpX ≤
      (calculateClearanceWindow ox ow oh jf g s).latestJumpX := by
  refine ⟨?_, clearanceWindow_ordered ox ow oh jf g s⟩
  have hcore : clearanceCore oh jf g s =
      (true, 0, (scanPositions (requiredClearanceY oh) (simulateJump 0 jf g s 0)).2.1,
        (scanPositions (requiredClearanceY oh) (simulateJump 0 jf g s 0)).2.2) := by
    unfold clearanceCore
    dsimp only
    rw [if_pos (Or.inr hf), hsweep]
  have hoff : clearanceOffsets oh jf g s = (50, 150) := by
    unfold clearanceOffsets
    rw [hcore]
    dsimp only
    rw [if_pos hf, if_pos hl]
  unfold calculateClearanceWindow
  rw [hcore, hoff]

/-- C7 witness: with a zero impulse the tap trajectory is empty, every hold
candidate also yields an empty trajectory, and the solver returns the
default-offset window `[930, 950]` for the obstacle at x=1000, width 80. -/
theorem solver_fallback_defaults_witness :
    ((scanPositions (requiredClearanceY 50) (simulateJump 0 0 650 180 0)).2.1 < 0) ∧
    ((scanPositions (requiredClearanceY 50) (simulateJump 0 0 650 180 0)).2.2 < 0) ∧
    (sweepHold 0 650 180 (requiredClearanceY 50) holdCandidates = none) ∧
    (calculateClearanceWindow 1000 80 50 0 650 180 =
      ⟨min (1000 + 80 - 150) (1000 - 50), max (1000 + 80 - 150) (1000 - 50), true, 0⟩ ∧
    (calculateClearanceWindow 1000 80 50 0 650 180).earliestJumpX ≤
      (calculateClearanceWindow 1000 80 50 0 650 180).latestJumpX) :=
  ⟨by decide, by decide, by decide,
   solver_fallback_defaults 1000 80 50 0 650 180 (by decide) (by decide) (by decide)⟩

end WaveRunner
